import Mathlib

/-!
Verification of the CuratAI backend's Identity & Scene Retrieval Pipeline.

Shallow embedding of the algorithmic core of the repository:
* `services/albums_services.py` — album generation by face-embedding similarity;
* `services/image_searching_service.py` — people resolution, scene resolution,
  and result composition;
* `graph/image_searching_graph.py` — the pipeline nodes and error accumulation.

Numeric code (numpy / sklearn / faiss float32 arithmetic) is modelled over `ℝ`;
Python sets are modelled as lists up to membership (CPython set iteration order
is unspecified, all properties below are stated at the level of membership).
Database rows are modelled as lists in table order; external model calls
(DeepFace, CLIP) are parameters: the reference/scene embedding that the
black-box model returned is passed in as a vector.
-/

namespace CuratAI

/-! ### Generic list helpers -/

/-- Python `list(dict.fromkeys(xs))` relative to an already-seen set:
keeps the first occurrence of every element, dropping later duplicates. -/
def dkfAux (seen : List String) : List String → List String
  | [] => []
  | a :: t => if a ∈ seen then dkfAux seen t else a :: dkfAux (a :: seen) t

/-- Python `list(dict.fromkeys(xs))`: first-occurrence deduplication. -/
def dedupKeepFirst (l : List String) : List String := dkfAux [] l

/-- Lookup in a Python `dict(zip(keys, vals))` built by inserting the pairs in
order: the last pair with the given key wins. -/
def assocLast (ps : List (String × String)) (k : String) : Option String :=
  ps.foldl (fun acc p => if p.1 = k then some p.2 else acc) none

/-- Python `set.intersection(*sets)` over a non-empty list of lists-as-sets
(`setInterList [] = []` is never reached by the callers below, which guard
against the empty case first). -/
def setInterList (ss : List (List String)) : List String :=
  match ss with
  | [] => []
  | s :: rest => rest.foldl (fun acc t => acc.filter (· ∈ t)) s.dedup

/-! ### Vector arithmetic (numpy / sklearn / faiss over float32, modelled on ℝ) -/

/-- `np.dot` of two vectors (row-times-vector product for one matrix row). -/
def dot (v w : List ℝ) : ℝ := ((v.zip w).map (fun p => p.1 * p.2)).sum

/-- Sum of squares of the entries. -/
def sumSq (v : List ℝ) : ℝ := (v.map (fun x => x * x)).sum

/-- Euclidean norm of a vector. -/
noncomputable def l2norm (v : List ℝ) : ℝ := Real.sqrt (sumSq v)

/-- `sklearn.preprocessing.normalize` / `faiss.normalize_L2` on one row:
divide by the L2 norm, leaving the row unchanged when its norm is zero
(sklearn substitutes 1 for zero norms). -/
noncomputable def l2normalize (v : List ℝ) : List ℝ :=
  if l2norm v = 0 then v else v.map (· / l2norm v)

/-! ### Album Builder (`albums_services.py`, `generate_albums` lines 168–191)

One stored row of the `cropped_faces` table after the parsing done by
`get_all_images_embeddings` (which only returns rows whose `embedding` has
been validated as a list of floats). -/

structure FaceRec where
  id : String
  image_id : String
  embedding : List ℝ

/-- Cosine similarity the code computes for one stored face record:
the dot product of the sklearn-normalized stored embedding row with the
normalized reference (query) embedding. -/
noncomputable def simTo (q : List ℝ) (r : FaceRec) : ℝ :=
  dot (l2normalize r.embedding) (l2normalize q)

/-- The similarity-selection core of `generate_albums` (lines 168–191): given
the parsed face records and the reference embedding produced by
`DeepFace.represent`, raise when the project has no stored embeddings, else
keep every record with similarity `>= 0.4` and list its parent `image_id`
(`related_image_ids = [image_embeddings[i]['image_id'] for i in related_indices]`
— a list comprehension, one entry per matching face record). The earlier
stages of `generate_albums` (image decode, face extraction, reference
embedding) are external model calls; their output is the parameter `q`. -/
noncomputable def generateAlbumsSelect (recs : List FaceRec) (q : List ℝ) :
    Except String (List String) :=
  if recs.isEmpty then .error "No embeddings found in the database."
  else .ok (((recs.filter (fun r => decide ((0.4 : ℝ) ≤ simTo q r))).map
    (fun r => r.image_id)))

/-! ### Result types for the searching service -/

/-- The per-person dict built by `_searching_based_on_people_node`
(lines 113–117 of `image_searching_graph.py`) and consumed by
`combine_face_detection_results`. -/
structure PersonResult where
  person_name : String
  related_image_ids : List String
  image_links : List String
deriving Repr, DecidableEq

/-- The success payload shared by the combined people result, the scene
result and the final search result:
`{"related_image_ids": [...], "image_links": [...]}`. -/
structure SearchRes where
  related_image_ids : List String
  image_links : List String
deriving Repr, DecidableEq

/-! ### People Resolver (`image_searching_service.py` lines 136–209) -/

/-- One row of the `albums` table. -/
structure AlbumRow where
  project_id : String
  person_name : String
  image_group : List String
deriving Repr, DecidableEq

/-- One row of the `images` table; `image_url` is `none` for a null/empty
(falsy) URL, which the code's comprehensions filter out. -/
structure ImageRow where
  id : String
  image_url : Option String
deriving Repr, DecidableEq

/-- The two tables read by the People Resolver, rows in table order. -/
structure Store where
  albums : List AlbumRow
  images : List ImageRow
deriving Repr, DecidableEq

/-- `get_related_images_for_person` (lines 136–174): select album rows by
`person_name` only (no `project_id` filter), take the first returned row's
`image_group`, then bulk-look up those ids in the `images` table and keep the
truthy URLs. -/
def getRelatedImagesForPerson (st : Store) (name : String) :
    Except String SearchRes :=
  match st.albums.filter (fun a => a.person_name = name) with
  | [] => .error ("No albums found for person: " ++ name)
  | album :: _ =>
    let ids := album.image_group
    let rows := st.images.filter (fun i => i.id ∈ ids)
    if rows.isEmpty then
      .error ("No images found for related_image_ids of person: " ++ name)
    else
      .ok ⟨ids, rows.filterMap (fun i => i.image_url)⟩

/-- `combine_face_detection_results` (lines 176–209): one person's result
passes through; for several, the per-person id lists and link lists are each
turned into sets — dropping empty (falsy) lists — and intersected
independently; if either family of sets is empty the call fails. -/
def combineFaceDetectionResults (rs : List PersonResult) :
    Except String SearchRes :=
  match rs with
  | [] => .error "No face detection results provided"
  | r :: rest =>
    if rest.isEmpty then .ok ⟨r.related_image_ids, r.image_links⟩
    else
      let idSets := ((r :: rest).map (fun p => p.related_image_ids)).filter
        (fun l => !l.isEmpty)
      let linkSets := ((r :: rest).map (fun p => p.image_links)).filter
        (fun l => !l.isEmpty)
      if idSets.isEmpty || linkSets.isEmpty then
        .error "No valid related_image_ids or image_links found in face detection results"
      else
        .ok ⟨setInterList idSets, setInterList linkSets⟩

/-! ### Result Composer (`image_searching_service.py` lines 292–341) -/

/-- The URL chosen for one surviving image id by the loop in
`combine_search_results` (lines 326–330): the face map's URL when that map
contains the id, else the scene map's URL, else nothing. -/
def prefUrl (f s : SearchRes) (i : String) : Option String :=
  match assocLast (f.related_image_ids.zip f.image_links) i with
  | some u => some u
  | none => assocLast (s.related_image_ids.zip s.image_links) i

/-- `combine_search_results` (lines 292–341). `none` stands for a falsy
(absent or `{}`) stage result, as passed by `_combine_searching_results_node`
via `state.get(..., {})`. When both sides are present: intersect the id sets,
and collect into a set the preferred URL of each surviving id. -/
def combineSearchResults (face scene : Option SearchRes) :
    Except String SearchRes :=
  match face, scene with
  | none, none => .error "No search results provided"
  | none, some s => .ok s
  | some f, none => .ok f
  | some f, some s =>
    let commonIds := (f.related_image_ids.dedup).filter
      (· ∈ s.related_image_ids)
    .ok ⟨commonIds, (commonIds.filterMap (fun i => prefUrl f s i)).dedup⟩

/-! ### Scene Resolver (`image_searching_service.py` lines 211–283) -/

/-- One token of a stored embedding after Python's conversion attempt:
`num x` is a token `float()` / `np.array` converts to the float `x`,
`bad` is a token on which the conversion raises `ValueError`. -/
inductive Tok where
  | num (x : ℝ)
  | bad

/-- A truthy stored `image_embeddings` value: a delimited string (its
comma-split tokens after `strip("[]")`), a Python list (its elements), or a
value of any other type (which the loop skips with a warning). -/
inductive EmbVal where
  | strVal (toks : List Tok)
  | listVal (toks : List Tok)
  | otherVal

/-- One row of the `images` table as read by `get_images_based_on_scene`;
`image_embeddings = none` stands for any falsy value (null, `""`, `[]`),
which the `valid_items` filter drops. -/
structure ImgItem where
  id : String
  image_url : String
  image_embeddings : Option EmbVal

/-- One collected embedding with its metadat row
(`image_embeddings.append(...)` / `image_metadata.append(...)`). -/
structure EmbRow where
  vec : List ℝ
  id : String
  url : String

/-- Convert a token list to a float vector; `none` when any token raises. -/
def parseToks : List Tok → Option (List ℝ)
  | [] => some []
  | .num x :: t => (parseToks t).map (fun v => x :: v)
  | .bad :: _ => none

/-- The collection loop of `get_images_based_on_scene` (lines 232–244):
a malformed string or list raises `ValueError` out of the loop (ending the
whole call), while an embedding of unexpected type is skipped with a log. -/
def collectEmbeddings : List ImgItem → Except String (List EmbRow)
  | [] => .ok []
  | item :: rest =>
    match item.image_embeddings with
    | none => collectEmbeddings rest
    | some (.strVal toks) =>
      match parseToks toks with
      | none => .error "could not convert string to float"
      | some v => (collectEmbeddings rest).map (fun l => ⟨v, item.id, item.image_url⟩ :: l)
    | some (.listVal toks) =>
      match parseToks toks with
      | none => .error "could not convert list to float32 array"
      | some v => (collectEmbeddings rest).map (fun l => ⟨v, item.id, item.image_url⟩ :: l)
    | some .otherVal => collectEmbeddings rest

/-- One scored image as assembled in the `related_images` list. -/
structure SceneHit where
  id : String
  url : String
  score : ℝ

/-- Stable insertion for descending-by-score order: an element is placed
before the first strictly smaller score, after equal ones — the order
produced by Python's stable `sort(key=..., reverse=True)` and by the faiss
ranked search. -/
noncomputable def insertDesc (x : SceneHit) : List SceneHit → List SceneHit
  | [] => [x]
  | y :: ys => if y.score ≤ x.score then x :: y :: ys else y :: insertDesc x ys

/-- Stable sort, descending by similarity score. -/
noncomputable def sortByScoreDesc (l : List SceneHit) : List SceneHit :=
  l.foldr insertDesc []

/-- `get_images_based_on_scene` (lines 211–283). `items` are the project's
`images` rows; `sceneEmb` is the CLIP text embedding of the scene description
(an external model call, passed in). The faiss `IndexFlatIP` search over the
L2-normalized matrix with `k = len(image_metadata)` returns every row ranked
by inner product, the code keeps scores `>= 0.25` and sorts descending. -/
noncomputable def getImagesBasedOnScene (items : List ImgItem)
    (sceneEmb : List ℝ) : Except String SearchRes :=
  if items.isEmpty then .error "No images found for project_id"
  else
    let valid := items.filter (fun i => i.image_embeddings.isSome)
    if valid.isEmpty then .error "No images with embeddings found for project_id"
    else
      (collectEmbeddings valid).bind (fun rows =>
        if rows.isEmpty then .error "No valid embeddings found for project_id"
        else
          let qn := l2normalize sceneEmb
          let scored := rows.map (fun r =>
            SceneHit.mk r.id r.url (dot (l2normalize r.vec) qn))
          let ranked := sortByScoreDesc scored
          let related := sortByScoreDesc
            (ranked.filter (fun h => decide ((0.25 : ℝ) ≤ h.score)))
          .ok ⟨related.map (fun h => h.id), related.map (fun h => h.url)⟩)

/-! ### Pipeline Orchestrator (`graph/image_searching_graph.py`) -/

/-- The structured criteria extracted from the query by the LLM node. -/
structure QueryExtraction where
  people : List String
  emotions : List String
  scene : String
deriving Repr, DecidableEq

/-- `ImageSearchingState` (`models/image_searching_model.py`): the transient
per-request pipeline state. For the result fields `none` models an
absent/falsy value. `json_query_extraction` is three-valued as in a run:
`none` when the key is absent from the state dict, `some none` when it holds
the Python value None — the router initializes it so
(`image_searching_router.py` line 86) and the parse-failure path keeps it —
and `some (some e)` when it holds an extracted mapping. -/
structure PState where
  people_names : List String
  query_str : String
  project_id : String
  face_detection_results : Option (List PersonResult)
  face_detection_results_combined : Option SearchRes
  scene_results : Option SearchRes
  search_results : Option SearchRes
  json_query_extraction : Option (Option QueryExtraction)
  errors : List String
deriving Repr, DecidableEq

/-- `add_error` (lines 192–196): reset a falsy error list to `[]`, append the
message, then deduplicate keeping first occurrences
(`list(dict.fromkeys(...))`). On a plain list the falsy-reset is the
identity, so the whole call is first-occurrence dedup of `errors ++ [msg]`. -/
def addError (errs : List String) (msg : String) : List String :=
  dedupKeepFirst (errs ++ [msg])

/-- `self.add_error(state, msg)` as a state update. -/
def addErrorState (s : PState) (msg : String) : PState :=
  { s with errors := addError s.errors msg }

/-- The read `state.get("json_query_extraction", {}).get("people", [])`
(line 99): with the key absent the chained defaults give `[]`; with the
value None the second `.get` raises
`AttributeError: 'NoneType' object has no attribute 'get'` (modelled here
with the quote characters dropped from the message); with a mapping it
returns its people list. -/
def peopleGet (s : PState) : Except String (List String) :=
  match s.json_query_extraction with
  | none => .ok []
  | some none => .error "NoneType object has no attribute get"
  | some (some e) => .ok e.people

/-- The read `state.get("json_query_extraction", {}).get("scene", "")`
(line 146), with the same three cases as `peopleGet`. -/
def sceneGet (s : PState) : Except String String :=
  match s.json_query_extraction with
  | none => .ok ""
  | some none => .error "NoneType object has no attribute get"
  | some (some e) => .ok e.scene

/-- The per-name fetch loop of `_searching_based_on_people_node`
(lines 106–121): call `get_related_images_for_person` for each name in order,
building the per-person dicts; the first failure raises out of the loop. -/
def fetchLoop (oracle : String → Except String SearchRes) :
    List String → Except String (List PersonResult)
  | [] => .ok []
  | n :: ns =>
    match oracle n with
    | .error e => .error e
    | .ok r =>
      (fetchLoop oracle ns).map
        (fun l => ⟨n, r.related_image_ids, r.image_links⟩ :: l)

/-- `_searching_based_on_people_node` (lines 93–139). `oracle` is the
database-backed `get_related_images_for_person` call. The extraction read
runs inside the node's `try`: an AttributeError from it is caught and
recorded via `add_error` with the node-name prefix. With an empty people
list the node returns the state untouched; otherwise it fetches each
person's images (a failure is caught and recorded likewise), stores the
per-person results, and stores the combined result (a combine failure is
likewise caught after the per-person store). -/
def searchingBasedOnPeopleNode (oracle : String → Except String SearchRes)
    (s : PState) : PState :=
  match peopleGet s with
  | .error e => addErrorState s ("_searching_based_on_people_node: " ++ e)
  | .ok people =>
    if people.isEmpty then s
    else
      match fetchLoop oracle people with
      | .error e => addErrorState s ("_searching_based_on_people_node: " ++ e)
      | .ok results =>
        let s1 := { s with face_detection_results := some results }
        match combineFaceDetectionResults results with
        | .ok c => { s1 with face_detection_results_combined := some c }
        | .error e =>
          addErrorState s1 ("_searching_based_on_people_node: " ++ e)

/-- `_searching_based_on_scene_node` (lines 141–166). `oracle` is the
`get_images_based_on_scene` call on this request's project. An
AttributeError from the extraction read is caught and recorded; a falsy
(empty) scene description returns the state untouched; a service failure is
caught and recorded; on success the scene result is stored. -/
def searchingBasedOnSceneNode (oracle : String → Except String SearchRes)
    (s : PState) : PState :=
  match sceneGet s with
  | .error e => addErrorState s ("_searching_based_on_scene_node: " ++ e)
  | .ok desc =>
    if desc.isEmpty then s
    else
      match oracle desc with
      | .ok r => { s with scene_results := some r }
      | .error e => addErrorState s ("_searching_based_on_scene_node: " ++ e)

/-- One step of the compiled LangGraph workflow
(`_build_graph`, lines 198–216): the node runs on the state assembled from
the channels and its returned full state is applied as a channel update.
Every field is a last-value channel except `errors`, which
`ImageSearchingState` annotates with `operator.add`
(`models/image_searching_model.py` line 19), so the returned error list is
concatenated onto the current channel list. -/
def graphStep (node : PState → PState) (s : PState) : PState :=
  let r := node s
  { r with errors := s.errors ++ r.errors }

/-! ### Helper lemmas -/

lemma mem_dkfAux {x : String} :
    ∀ (l : List String) (seen : List String),
      x ∈ dkfAux seen l ↔ x ∈ l ∧ x ∉ seen := by
  intro l
  induction l with
  | nil => intro seen; simp [dkfAux]
  | cons a t ih =>
    intro seen
    by_cases h : a ∈ seen
    · rw [dkfAux, if_pos h, ih]
      constructor
      · rintro ⟨hx, hs⟩; exact ⟨List.mem_cons_of_mem _ hx, hs⟩
      · rintro ⟨hx, hs⟩
        rcases List.mem_cons.mp hx with rfl | hx
        · exact absurd h hs
        · exact ⟨hx, hs⟩
    · rw [dkfAux, if_neg h]
      simp only [List.mem_cons, ih, List.mem_cons]
      constructor
      · rintro (rfl | ⟨hx, hs⟩)
        · exact ⟨Or.inl rfl, h⟩
        · exact ⟨Or.inr hx, fun hc => hs (Or.inr hc)⟩
      · rintro ⟨rfl | hx, hs⟩
        · exact Or.inl rfl
        · by_cases hxa : x = a
          · exact Or.inl hxa
          · exact Or.inr ⟨hx, fun hc => (hc.elim hxa hs)⟩

lemma nodup_dkfAux : ∀ (l seen : List String), (dkfAux seen l).Nodup := by
  intro l
  induction l with
  | nil => intro seen; simp [dkfAux]
  | cons a t ih =>
    intro seen
    by_cases h : a ∈ seen
    · rw [dkfAux, if_pos h]; exact ih seen
    · rw [dkfAux, if_neg h]
      refine List.nodup_cons.mpr ⟨fun hc => ?_, ih (a :: seen)⟩
      exact ((mem_dkfAux t (a :: seen)).mp hc).2 (List.mem_cons_self a seen)

lemma sublist_dkfAux : ∀ (l seen : List String), List.Sublist (dkfAux seen l) l := by
  intro l
  induction l with
  | nil => intro seen; simp [dkfAux]
  | cons a t ih =>
    intro seen
    by_cases h : a ∈ seen
    · rw [dkfAux, if_pos h]; exact (ih seen).cons a
    · rw [dkfAux, if_neg h]; exact (ih (a :: seen)).cons₂ a

lemma dkfAux_append_dkfAux :
    ∀ (l seen ms : List String),
      dkfAux seen (dkfAux seen l ++ ms) = dkfAux seen (l ++ ms) := by
  intro l
  induction l with
  | nil => intro seen ms; simp [dkfAux]
  | cons a t ih =>
    intro seen ms
    by_cases h : a ∈ seen
    · rw [dkfAux, if_pos h, ih, List.cons_append, dkfAux, if_pos h]
    · rw [dkfAux, if_neg h, List.cons_append, dkfAux, if_neg h,
        List.cons_append, dkfAux, if_neg h, ih]

lemma foldl_addError_dkf :
    ∀ (msgs l : List String),
      List.foldl addError (dedupKeepFirst l) msgs = dedupKeepFirst (l ++ msgs) := by
  intro msgs
  induction msgs with
  | nil => intro l; simp
  | cons m ms ih =>
    intro l
    have h1 : addError (dedupKeepFirst l) m = dedupKeepFirst (l ++ [m]) := by
      rw [addError, dedupKeepFirst, dedupKeepFirst, dkfAux_append_dkfAux]
      rfl
    calc List.foldl addError (dedupKeepFirst l) (m :: ms)
        = List.foldl addError (dedupKeepFirst (l ++ [m])) ms := by
          rw [List.foldl_cons, h1]
      _ = dedupKeepFirst ((l ++ [m]) ++ ms) := ih (l ++ [m])
      _ = dedupKeepFirst (l ++ m :: ms) := by
          rw [List.append_assoc, List.singleton_append]

lemma mem_foldl_interFilter (x : String) :
    ∀ (rest : List (List String)) (acc : List String),
      x ∈ rest.foldl (fun acc t => acc.filter (· ∈ t)) acc ↔
        x ∈ acc ∧ ∀ t ∈ rest, x ∈ t := by
  intro rest
  induction rest with
  | nil => intro acc; simp
  | cons s rest ih =>
    intro acc
    rw [List.foldl_cons, ih]
    simp only [List.mem_filter, decide_eq_true_eq, List.mem_cons]
    constructor
    · rintro ⟨⟨ha, hs⟩, hrest⟩
      exact ⟨ha, fun t ht => ht.elim (fun h => h ▸ hs) (hrest t)⟩
    · rintro ⟨ha, hall⟩
      exact ⟨⟨ha, hall s (Or.inl rfl)⟩, fun t ht => hall t (Or.inr ht)⟩

lemma mem_setInterList (x : String) (s : List String) (rest : List (List String)) :
    x ∈ setInterList (s :: rest) ↔ x ∈ s ∧ ∀ t ∈ rest, x ∈ t := by
  rw [setInterList, mem_foldl_interFilter, List.mem_dedup]

/-! ### Claims -/

/-- The pipeline state the router hands to the graph
(`image_searching_router.py` lines 80–89): every result field None,
`json_query_extraction` None, `errors` empty. -/
def exStateNone : PState :=
  ⟨[], "a wedding", "p1", none, none, none, none, some none, []⟩

/-- C8: the run-level error list is NOT duplicate-free. `add_error` itself
deduplicates (last conjunct), but `errors` is an `operator.add` channel and
every node returns the full state, so each node return concatenates the
whole list back onto the channel: starting from the router's initial state
(`json_query_extraction = None`), the people node records its
AttributeError message, and after the scene node's return the channel holds
that message twice — the final list fails `Nodup`, against the claim (and
the spec's stated dedup intent, which the code's own
`list(dict.fromkeys(...))` in `add_error` documents). -/
theorem claim_C8 :
    (graphStep (searchingBasedOnSceneNode (fun _ => .error "unused"))
        (graphStep (searchingBasedOnPeopleNode (fun _ => .error "unused"))
          exStateNone)).errors =
      ["_searching_based_on_people_node: NoneType object has no attribute get",
       "_searching_based_on_people_node: NoneType object has no attribute get",
       "_searching_based_on_scene_node: NoneType object has no attribute get"] ∧
    ¬ (["_searching_based_on_people_node: NoneType object has no attribute get",
        "_searching_based_on_people_node: NoneType object has no attribute get",
        "_searching_based_on_scene_node: NoneType object has no attribute get"] :
       List String).Nodup ∧
    (∀ (errs : List String) (m : String),
      (addError errs m).Nodup ∧ m ∈ addError errs m) := by
  refine ⟨rfl, by decide, ?_⟩
  intro errs m
  refine ⟨nodup_dkfAux _ _, ?_⟩
  rw [addError, dedupKeepFirst, mem_dkfAux]
  simp

/-- C5: single-criterion passthrough in `combine_search_results`: a present
people result with a falsy scene result is returned unchanged, a present
scene result with a falsy people result is returned unchanged, and two falsy
results give a failure, not a result. -/
theorem claim_C5 :
    (∀ f : SearchRes, combineSearchResults (some f) none = .ok f) ∧
    (∀ s : SearchRes, combineSearchResults none (some s) = .ok s) ∧
    combineSearchResults none none = .error "No search results provided" :=
  ⟨fun _ => rfl, fun _ => rfl, rfl⟩

/-- C4: with both results present, `combine_search_results` returns exactly
the image ids lying in both `related_image_ids` lists, and the returned URL
set consists, for each surviving id, of the people-map URL when that map
contains the id and otherwise the scene-map URL (`prefUrl`). -/
theorem claim_C4 (f s : SearchRes) :
    ∃ out, combineSearchResults (some f) (some s) = .ok out ∧
      (∀ i, i ∈ out.related_image_ids ↔
        i ∈ f.related_image_ids ∧ i ∈ s.related_image_ids) ∧
      (∀ u, u ∈ out.image_links ↔
        ∃ i, (i ∈ f.related_image_ids ∧ i ∈ s.related_image_ids) ∧
          prefUrl f s i = some u) := by
  refine ⟨_, rfl, ?_, ?_⟩
  · intro i
    simp [List.mem_filter, List.mem_dedup]
  · intro u
    simp only [List.mem_dedup, List.mem_filterMap, List.mem_filter,
      List.mem_dedup, decide_eq_true_eq]

lemma bnot_isEmpty_of_ne_nil {α : Type} {l : List α} (h : l ≠ []) :
    (!l.isEmpty) = true := by
  cases l with
  | nil => exact absurd rfl h
  | cons a t => rfl

/-- C3 counterexample: `combine_face_detection_results` on a person with
images and a person with an empty image set returns the first person's set,
not the (empty) intersection — the comprehension building the per-person sets
filters out falsy (empty) lists before intersecting. -/
theorem claim_C3_counterexample :
    combineFaceDetectionResults
        [⟨"a", ["i1"], ["u1"]⟩, ⟨"b", [], []⟩] = .ok ⟨["i1"], ["u1"]⟩ ∧
    ¬("i1" ∈ (PersonResult.mk "a" ["i1"] ["u1"]).related_image_ids ∧
      "i1" ∈ (PersonResult.mk "b" [] []).related_image_ids) := by
  constructor
  · rfl
  · decide

/-- C3 (amended): for two per-person results whose id lists and link lists
are all non-empty, the ids returned by `combine_face_detection_results` are
exactly the intersection of the two id sets; when one person's lists are
empty they are dropped before intersecting, so the combined set equals the
other person's set rather than being empty. -/
theorem claim_C3 (A B : PersonResult)
    (hA : A.related_image_ids ≠ []) (hB : B.related_image_ids ≠ [])
    (hAl : A.image_links ≠ []) (hBl : B.image_links ≠ []) :
    ∃ out, combineFaceDetectionResults [A, B] = .ok out ∧
      ∀ i, i ∈ out.related_image_ids ↔
        i ∈ A.related_image_ids ∧ i ∈ B.related_image_ids := by
  refine ⟨⟨setInterList [A.related_image_ids, B.related_image_ids],
    setInterList [A.image_links, B.image_links]⟩, ?_, ?_⟩
  · simp only [combineFaceDetectionResults, List.isEmpty_cons, List.map_cons,
      List.map_nil, List.filter, bnot_isEmpty_of_ne_nil hA,
      bnot_isEmpty_of_ne_nil hB, bnot_isEmpty_of_ne_nil hAl,
      bnot_isEmpty_of_ne_nil hBl, if_false, Bool.false_eq_true]
    rfl
  · intro i
    rw [mem_setInterList]
    simp

/-- C10: `combine_face_detection_results` intersects the per-person
`image_links` sets independently of the `related_image_ids` sets: on two
persons with disjoint image ids but a shared URL it returns an empty id list
together with a non-empty link list, and in general (for two or more
per-person results with non-empty lists) the returned links are exactly the
URLs common to every person's `image_links`, with no tie to the returned
ids. -/
theorem claim_C10 :
    combineFaceDetectionResults
        [⟨"a", ["i1"], ["u0"]⟩, ⟨"b", ["i2"], ["u0"]⟩] = .ok ⟨[], ["u0"]⟩ ∧
    ∀ (rs : List PersonResult) (out : SearchRes), 2 ≤ rs.length →
      (∀ r ∈ rs, r.related_image_ids ≠ [] ∧ r.image_links ≠ []) →
      combineFaceDetectionResults rs = .ok out →
      ∀ u, u ∈ out.image_links ↔ ∀ r ∈ rs, u ∈ r.image_links := by
  constructor
  · rfl
  · intro rs out hlen hne hok u
    match rs, hlen with
    | r1 :: r2 :: rest, _ =>
      have hfl : ((r1 :: r2 :: rest).map (fun p => p.image_links)).filter
          (fun l => !l.isEmpty) =
          (r1 :: r2 :: rest).map (fun p => p.image_links) := by
        refine List.filter_eq_self.mpr ?_
        intro x hx
        obtain ⟨p, hp, rfl⟩ := List.mem_map.mp hx
        exact bnot_isEmpty_of_ne_nil (hne p hp).2
      have hfi : ((r1 :: r2 :: rest).map (fun p => p.related_image_ids)).filter
          (fun l => !l.isEmpty) =
          (r1 :: r2 :: rest).map (fun p => p.related_image_ids) := by
        refine List.filter_eq_self.mpr ?_
        intro x hx
        obtain ⟨p, hp, rfl⟩ := List.mem_map.mp hx
        exact bnot_isEmpty_of_ne_nil (hne p hp).1
      rw [combineFaceDetectionResults] at hok
      simp only [List.map_cons] at hfl hfi
      simp only [List.isEmpty_cons, Bool.false_eq_true, if_false,
        List.map_cons, hfl, hfi, Bool.or_self] at hok
      injection hok with hout
      rw [← hout]
      rw [mem_setInterList]
      constructor
      · rintro ⟨h1, h2⟩ p hp
        rcases List.mem_cons.mp hp with rfl | hp
        · exact h1
        rcases List.mem_cons.mp hp with rfl | hp
        · exact h2 _ (List.mem_cons_self _ _)
        · exact h2 _ (List.mem_cons_of_mem _ (List.mem_map_of_mem _ hp))
      · intro hall
        refine ⟨hall r1 (List.mem_cons_self _ _), ?_⟩
        intro t ht
        rcases List.mem_cons.mp ht with rfl | ht
        · exact hall r2 (List.mem_cons_of_mem _ (List.mem_cons_self _ _))
        · obtain ⟨p, hp, rfl⟩ := List.mem_map.mp ht
          exact hall p (List.mem_cons_of_mem _ (List.mem_cons_of_mem _ hp))

/-- C10 witness: the general link-intersection law instantiated at the two
concrete per-person results with disjoint ids and a shared URL. -/
theorem claim_C10_witness :
    (2 ≤ ([⟨"a", ["i1"], ["u0"]⟩, ⟨"b", ["i2"], ["u0"]⟩] :
        List PersonResult).length) ∧
    (∀ r ∈ ([⟨"a", ["i1"], ["u0"]⟩, ⟨"b", ["i2"], ["u0"]⟩] :
        List PersonResult), r.related_image_ids ≠ [] ∧ r.image_links ≠ []) ∧
    ("u0" ∈ (SearchRes.mk [] ["u0"]).image_links ↔
      ∀ r ∈ ([⟨"a", ["i1"], ["u0"]⟩, ⟨"b", ["i2"], ["u0"]⟩] :
        List PersonResult), "u0" ∈ r.image_links) :=
  ⟨by decide, by decide,
    claim_C10.2 [⟨"a", ["i1"], ["u0"]⟩, ⟨"b", ["i2"], ["u0"]⟩] ⟨[], ["u0"]⟩
      (by decide) (by decide) claim_C10.1 "u0"⟩

/-- C3 witness: the amended intersection law instantiated at two persons
with overlapping non-empty image sets. -/
theorem claim_C3_witness :
    ((["i1", "i2"] : List String) ≠ []) ∧ ((["i2"] : List String) ≠ []) ∧
    ((["u1"] : List String) ≠ []) ∧ ((["u2"] : List String) ≠ []) ∧
    ∃ out, combineFaceDetectionResults
        [⟨"a", ["i1", "i2"], ["u1"]⟩, ⟨"b", ["i2"], ["u2"]⟩] = .ok out ∧
      ∀ i, i ∈ out.related_image_ids ↔
        i ∈ (PersonResult.mk "a" ["i1", "i2"] ["u1"]).related_image_ids ∧
        i ∈ (PersonResult.mk "b" ["i2"] ["u2"]).related_image_ids :=
  ⟨by decide, by decide, by decide, by decide,
    claim_C3 ⟨"a", ["i1", "i2"], ["u1"]⟩ ⟨"b", ["i2"], ["u2"]⟩
      (by decide) (by decide) (by decide) (by decide)⟩

/-- Images table shared by the two stores of the C9 scenario. -/
def exImgsC9 : List ImageRow := [⟨"i1", some "u1"⟩, ⟨"i2", some "u2"⟩]

/-- A store where project p1 owns the only album for "alice". -/
def exStoreA : Store := ⟨[⟨"p1", "alice", ["i1"]⟩], exImgsC9⟩

/-- A store with the same p1 album for "alice", and additionally an album
for "alice" in the unrelated project p2, stored first. -/
def exStoreB : Store :=
  ⟨[⟨"p2", "alice", ["i2"]⟩, ⟨"p1", "alice", ["i1"]⟩], exImgsC9⟩

/-- C9: `get_related_images_for_person` filters albums by person name only
(no project filter) and uses only the first returned row: the stores
`exStoreA` and `exStoreB` agree on every album of project p1, yet the lookup
for "alice" answers differently on them, because the other project's album
is the first row; in general, whenever the name filter returns a first row
`a`, the returned image ids are exactly `a.image_group`. -/
theorem claim_C9 :
    (exStoreA.albums.filter (fun r => r.project_id = "p1") =
      exStoreB.albums.filter (fun r => r.project_id = "p1")) ∧
    getRelatedImagesForPerson exStoreA "alice" = .ok ⟨["i1"], ["u1"]⟩ ∧
    getRelatedImagesForPerson exStoreB "alice" = .ok ⟨["i2"], ["u2"]⟩ ∧
    ∀ (st : Store) (name : String) (a : AlbumRow) (rest : List AlbumRow)
      (out : SearchRes),
      st.albums.filter (fun r => r.person_name = name) = a :: rest →
      getRelatedImagesForPerson st name = .ok out →
      out.related_image_ids = a.image_group := by
  refine ⟨rfl, rfl, rfl, ?_⟩
  intro st name a rest out hfilter hok
  rw [getRelatedImagesForPerson, hfilter] at hok
  simp only at hok
  split at hok
  · exact absurd hok (by simp)
  · injection hok with hout
    rw [← hout]

/-- C9 witness: the first-row law instantiated at `exStoreB`, whose albums
table holds two rows for "alice". -/
theorem claim_C9_witness :
    (exStoreB.albums.filter (fun r => r.person_name = "alice") =
      [⟨"p2", "alice", ["i2"]⟩, ⟨"p1", "alice", ["i1"]⟩]) ∧
    getRelatedImagesForPerson exStoreB "alice" = .ok ⟨["i2"], ["u2"]⟩ ∧
    (SearchRes.mk ["i2"] ["u2"]).related_image_ids =
      (AlbumRow.mk "p2" "alice" ["i2"]).image_group :=
  ⟨by decide, rfl,
    claim_C9.2.2.2 exStoreB "alice" ⟨"p2", "alice", ["i2"]⟩
      [⟨"p1", "alice", ["i1"]⟩] ⟨["i2"], ["u2"]⟩ (by decide) rfl⟩

/-- Example pipeline state whose query extraction is a parsed mapping with
an empty people list, as produced when the language model answers a query
that names no people. -/
def exStateC7 : PState :=
  ⟨[], "a wedding", "p1", none, none, none, none,
    some (some ⟨[], [], "a wedding"⟩), []⟩

/-- C7 counterexample: at the state whose `json_query_extraction` is the
Python value None — the router's initial value, preserved when the query
interpretation fails — the people node does not leave the state unmodified:
the `.get` chain raises AttributeError inside the node's `try`, and the node
returns the state with an error appended. -/
theorem claim_C7_counterexample :
    searchingBasedOnPeopleNode (fun _ => .error "db down") exStateNone =
      { exStateNone with errors :=
        ["_searching_based_on_people_node: NoneType object has no attribute get"] } ∧
    exStateNone.errors = [] :=
  ⟨rfl, rfl⟩

/-- C7 (amended): when the people read of the extraction succeeds with an
empty list — the key is absent, or it holds a parsed mapping whose people
list is empty — `_searching_based_on_people_node` returns the state with
every field unmodified and appends no error, and the composer maps the
still-absent people result plus a present scene result to exactly the scene
result, so the final `search_results` derive purely from the scene path;
the extraction value None instead makes the node record an AttributeError. -/
theorem claim_C7 (oracle : String → Except String SearchRes) (s : PState)
    (h : peopleGet s = .ok []) :
    searchingBasedOnPeopleNode oracle s = s ∧
    ∀ sc : SearchRes, combineSearchResults none (some sc) = .ok sc := by
  refine ⟨?_, fun sc => rfl⟩
  rw [searchingBasedOnPeopleNode, h]
  rfl

/-- C7 witness: the frame property instantiated at a concrete state whose
extraction mapping has an empty people list, with a database oracle that
would fail if it were ever called. -/
theorem claim_C7_witness :
    peopleGet exStateC7 = .ok [] ∧
    (searchingBasedOnPeopleNode (fun _ => .error "db down") exStateC7 =
        exStateC7 ∧
      ∀ sc : SearchRes, combineSearchResults none (some sc) = .ok sc) :=
  ⟨rfl, claim_C7 (fun _ => .error "db down") exStateC7 rfl⟩

/-! ### Concrete numeric evaluations for the album builder and scene resolver -/

lemma isEmpty_false_of_ne_nil {α : Type} {l : List α} (h : l ≠ []) :
    l.isEmpty = false := by
  cases l with
  | nil => exact absurd rfl h
  | cons a t => rfl

lemma l2normalize_pair : l2normalize [(1 : ℝ), 0] = [1, 0] := by
  have h : l2norm [(1 : ℝ), 0] = 1 := by
    rw [l2norm, show sumSq [(1 : ℝ), 0] = 1 by norm_num [sumSq], Real.sqrt_one]
  rw [l2normalize, h]
  norm_num

lemma simTo_pair (fid img : String) :
    simTo [(1 : ℝ), 0] ⟨fid, img, [(1 : ℝ), 0]⟩ = 1 := by
  rw [simTo]
  dsimp only
  rw [l2normalize_pair]
  norm_num [dot]

lemma gAS_eval_ex :
    generateAlbumsSelect
        [⟨"f1", "imgA", [(1 : ℝ), 0]⟩, ⟨"f2", "imgA", [(1 : ℝ), 0]⟩] [1, 0] =
      .ok ["imgA", "imgA"] := by
  have h1 : ∀ fid img : String,
      (decide ((0.4 : ℝ) ≤ simTo [(1 : ℝ), 0] ⟨fid, img, [(1 : ℝ), 0]⟩)) = true := by
    intro fid img
    rw [decide_eq_true_eq, simTo_pair]
    norm_num
  rw [generateAlbumsSelect, if_neg (by simp)]
  simp only [List.filter_cons, h1, if_true, List.filter_nil, List.map_cons,
    List.map_nil]

/-- C1 counterexample: two FaceRecords of the same parent image, both with
similarity 1 ≥ 0.4 against the reference, make `generate_albums` return the
parent image id twice — the returned `related_image_ids` list is built by a
list comprehension over the matching indices and is not deduplicated. -/
theorem claim_C1_counterexample :
    generateAlbumsSelect
        [⟨"f1", "imgA", [(1 : ℝ), 0]⟩, ⟨"f2", "imgA", [(1 : ℝ), 0]⟩] [1, 0] =
      .ok ["imgA", "imgA"] ∧
    (["imgA", "imgA"] : List String).count "imgA" = 2 :=
  ⟨gAS_eval_ex, by decide⟩

/-- C1 (amended): `generate_albums` returns one entry per FaceRecord scoring
at least 0.4: an image id is present exactly when some of its faces matches,
but it occurs once per matching face (the list is not deduplicated), so an
image with several matching faces appears several times. -/
theorem claim_C1 (recs : List FaceRec) (q : List ℝ) (ids : List String)
    (h : generateAlbumsSelect recs q = .ok ids) (img : String) :
    (img ∈ ids ↔ ∃ r ∈ recs, r.image_id = img ∧ (0.4 : ℝ) ≤ simTo q r) ∧
    ids.count img = (recs.filter
      (fun r => (r.image_id == img) && decide ((0.4 : ℝ) ≤ simTo q r))).length := by
  rw [generateAlbumsSelect] at h
  split at h
  · exact absurd h (by simp)
  · injection h with hids
    constructor
    · rw [← hids]
      simp only [List.mem_map, List.mem_filter, decide_eq_true_eq]
      constructor
      · rintro ⟨r, ⟨hr, hsim⟩, hid⟩
        exact ⟨r, hr, hid, hsim⟩
      · rintro ⟨r, hr, hid, hsim⟩
        exact ⟨r, ⟨hr, hsim⟩, hid⟩
    · rw [← hids, List.count, List.countP_map, List.countP_filter,
        List.countP_eq_length_filter]
      rfl

/-- C1 witness: the amended count law evaluated on the duplicate-parent
input. -/
theorem claim_C1_witness :
    generateAlbumsSelect
        [⟨"f1", "imgA", [(1 : ℝ), 0]⟩, ⟨"f2", "imgA", [(1 : ℝ), 0]⟩] [1, 0] =
      .ok ["imgA", "imgA"] ∧
    (("imgA" ∈ (["imgA", "imgA"] : List String) ↔
      ∃ r ∈ ([⟨"f1", "imgA", [(1 : ℝ), 0]⟩, ⟨"f2", "imgA", [(1 : ℝ), 0]⟩] :
          List FaceRec), r.image_id = "imgA" ∧
        (0.4 : ℝ) ≤ simTo [1, 0] r) ∧
    (["imgA", "imgA"] : List String).count "imgA" =
      (([⟨"f1", "imgA", [(1 : ℝ), 0]⟩, ⟨"f2", "imgA", [(1 : ℝ), 0]⟩] :
          List FaceRec).filter
        (fun r => (r.image_id == "imgA") &&
          decide ((0.4 : ℝ) ≤ simTo [1, 0] r))).length) :=
  ⟨gAS_eval_ex, claim_C1 _ _ _ gAS_eval_ex "imgA"⟩

/-- C6: the album-building threshold is the inclusive comparison
`similarities >= 0.4`: a record whose cosine similarity to the normalized
reference is exactly 0.4 is selected and its parent image id is in the
result, while a record with similarity strictly below 0.4 contributes
nothing — removing it from the stored set leaves the result unchanged. -/
theorem claim_C6 :
    (∀ (recs : List FaceRec) (q : List ℝ) (r : FaceRec), r ∈ recs →
      simTo q r = 0.4 →
      ∃ ids, generateAlbumsSelect recs q = .ok ids ∧ r.image_id ∈ ids) ∧
    (∀ (db₁ db₂ : List FaceRec) (r : FaceRec) (q : List ℝ),
      simTo q r < 0.4 → db₁ ++ db₂ ≠ [] →
      generateAlbumsSelect (db₁ ++ r :: db₂) q =
        generateAlbumsSelect (db₁ ++ db₂) q) := by
  constructor
  · intro recs q r hr hsim
    have hne : recs ≠ [] := List.ne_nil_of_mem hr
    refine ⟨_, by rw [generateAlbumsSelect,
      if_neg (by rw [isEmpty_false_of_ne_nil hne]; exact Bool.false_ne_true)], ?_⟩
    refine List.mem_map.mpr ⟨r, List.mem_filter.mpr ⟨hr, ?_⟩, rfl⟩
    rw [decide_eq_true_eq, hsim]
  · intro db₁ db₂ r q hsim hne
    have hfneg : (decide ((0.4 : ℝ) ≤ simTo q r)) = false := by
      rw [decide_eq_false_iff_not]
      exact not_le.mpr hsim
    have hne1 : db₁ ++ r :: db₂ ≠ [] := by simp
    rw [generateAlbumsSelect, generateAlbumsSelect,
      if_neg (by rw [isEmpty_false_of_ne_nil hne1]; exact Bool.false_ne_true),
      if_neg (by rw [isEmpty_false_of_ne_nil hne]; exact Bool.false_ne_true)]
    rw [List.filter_append, List.filter_append, List.filter_cons, hfneg]
    simp

lemma sqrt_twentyfive : Real.sqrt 25 = 5 := by
  rw [show (25 : ℝ) = 5 ^ 2 by norm_num, Real.sqrt_sq (by norm_num : (0:ℝ) ≤ 5)]

lemma l2normalize_ref4 : l2normalize [(1 : ℝ), 0, 0, 0] = [1, 0, 0, 0] := by
  have h : l2norm [(1 : ℝ), 0, 0, 0] = 1 := by
    rw [l2norm, show sumSq [(1 : ℝ), 0, 0, 0] = 1 by norm_num [sumSq],
      Real.sqrt_one]
  rw [l2normalize, h]
  norm_num

lemma simTo_boundary_in :
    simTo [(1 : ℝ), 0, 0, 0] ⟨"f1", "imgA", [(2 : ℝ), 4, 2, 1]⟩ = 0.4 := by
  have h : l2norm [(2 : ℝ), 4, 2, 1] = 5 := by
    rw [l2norm, show sumSq [(2 : ℝ), 4, 2, 1] = 25 by norm_num [sumSq],
      sqrt_twentyfive]
  rw [simTo]
  dsimp only
  rw [l2normalize_ref4, l2normalize, h]
  norm_num [dot]

lemma simTo_boundary_out :
    simTo [(1 : ℝ), 0, 0, 0] ⟨"f2", "imgB", [(1 : ℝ), 4, 2, 2]⟩ < 0.4 := by
  have h : l2norm [(1 : ℝ), 4, 2, 2] = 5 := by
    rw [l2norm, show sumSq [(1 : ℝ), 4, 2, 2] = 25 by norm_num [sumSq],
      sqrt_twentyfive]
  rw [simTo]
  dsimp only
  rw [l2normalize_ref4, l2normalize, h]
  norm_num [dot]

/-- C6 witness: the boundary laws instantiated at a stored embedding of
similarity exactly 0.4 (included) and one of similarity 0.2 (whose removal
leaves the result unchanged). -/
theorem claim_C6_witness :
    ((⟨"f1", "imgA", [(2 : ℝ), 4, 2, 1]⟩ : FaceRec) ∈
      ([⟨"f1", "imgA", [(2 : ℝ), 4, 2, 1]⟩] : List FaceRec)) ∧
    simTo [(1 : ℝ), 0, 0, 0] ⟨"f1", "imgA", [(2 : ℝ), 4, 2, 1]⟩ = 0.4 ∧
    (∃ ids, generateAlbumsSelect
        [⟨"f1", "imgA", [(2 : ℝ), 4, 2, 1]⟩] [(1 : ℝ), 0, 0, 0] = .ok ids ∧
      "imgA" ∈ ids) ∧
    simTo [(1 : ℝ), 0, 0, 0] ⟨"f2", "imgB", [(1 : ℝ), 4, 2, 2]⟩ < 0.4 ∧
    (([⟨"f1", "imgA", [(2 : ℝ), 4, 2, 1]⟩] : List FaceRec) ++ [] ≠ []) ∧
    generateAlbumsSelect
        (([⟨"f1", "imgA", [(2 : ℝ), 4, 2, 1]⟩] : List FaceRec) ++
          ⟨"f2", "imgB", [(1 : ℝ), 4, 2, 2]⟩ :: []) [(1 : ℝ), 0, 0, 0] =
      generateAlbumsSelect
        (([⟨"f1", "imgA", [(2 : ℝ), 4, 2, 1]⟩] : List FaceRec) ++ [])
        [(1 : ℝ), 0, 0, 0] :=
  ⟨List.mem_cons_self _ _, simTo_boundary_in,
    claim_C6.1 _ _ _ (List.mem_cons_self _ _) simTo_boundary_in,
    simTo_boundary_out, by simp,
    claim_C6.2 _ _ _ _ simTo_boundary_out (by simp)⟩

lemma l2normalize_one : l2normalize [(1 : ℝ)] = [1] := by
  have h : l2norm [(1 : ℝ)] = 1 := by
    rw [l2norm, show sumSq [(1 : ℝ)] = 1 by norm_num [sumSq], Real.sqrt_one]
  rw [l2normalize, h]
  norm_num

/-- C2: a single malformed stored embedding aborts the whole scene
resolution. On a project with one image whose string embedding contains a
non-numeric token and one image with a well-formed embedding,
`get_images_based_on_scene` returns failure — the `float()` conversion
raises out of the per-image loop into the function-level handler — whereas
the same call without the malformed image succeeds; the claim (and spec)
require the first call to skip the bad image and succeed as the second one
does. -/
theorem claim_C2 :
    getImagesBasedOnScene
        [⟨"imgA", "uA", some (.strVal [.num 1, .bad])⟩,
         ⟨"imgB", "uB", some (.listVal [.num 1])⟩] [1] =
      .error "could not convert string to float" ∧
    getImagesBasedOnScene [⟨"imgB", "uB", some (.listVal [.num 1])⟩] [1] =
      .ok ⟨["imgB"], ["uB"]⟩ := by
  constructor
  · rfl
  · have hsc : dot (l2normalize [(1 : ℝ)]) (l2normalize [(1 : ℝ)]) = 1 := by
      rw [l2normalize_one]
      norm_num [dot]
    have hkeep : (decide ((0.25 : ℝ) ≤
        dot (l2normalize [(1 : ℝ)]) (l2normalize [(1 : ℝ)]))) = true := by
      rw [decide_eq_true_eq, hsc]
      norm_num
    rw [getImagesBasedOnScene]
    simp only [List.isEmpty_cons, Bool.false_eq_true, if_false,
      List.filter_cons, Option.isSome_some, if_true, List.filter_nil,
      collectEmbeddings, parseToks, Option.map_some', Except.map, Except.bind,
      sortByScoreDesc, List.foldr_cons, List.foldr_nil,
      insertDesc, List.map_cons, List.map_nil, hkeep, List.filter_cons,
      List.filter_nil]

end CuratAI
